import Mathlib

/-!
Shallow embedding of the Confluence space-to-PDF export service
(src/services/confluence_api.py, src/services/download_file.py,
src/services/delete_files.py, src/routes/export_space.py).

Remote HTTP responses and cloud-storage behaviour are supplied by oracle
functions; the control flow of each Python function is translated
line by line.  Python exceptions are modelled with `Except PyErr`.
-/

/-- Python exceptions that the modelled control flow can raise. -/
inductive PyErr where
  /-- `requests.exceptions.MissingSchema`, raised by `requests.get(None)`. -/
  | missingSchema
  /-- `TypeError`, raised e.g. by `int(None)`. -/
  | typeError
  /-- `ValueError`, raised e.g. by `int("abc")` or `response.json()` on a non-JSON body. -/
  | valueError
  /-- `NameError`, raised when evaluating an unbound name such as `str(e)` with `e` undefined. -/
  | nameError
deriving Repr, DecidableEq

/-- The Python value bound to `status_code` in `export_pdf_confluence_page_by_id`:
either an int (bucket branch extracts `download_url['statusCode']`) or the whole
returned dict `{"statusCode": n}` (local branch binds the helper's return value). -/
inductive PyVal where
  | int (n : Nat)
  | statusDict (statusCode : Nat)
deriving Repr, DecidableEq

/-- Python `==` between the `status_code` value and an int literal:
a dict never equals an int. -/
def pyEqInt (v : PyVal) (m : Nat) : Bool :=
  match v with
  | .int n => n == m
  | .statusDict _ => false

/-- Decimal digits to a number; `none` when empty or containing a non-digit. -/
def decDigits (cs : List Char) : Option Nat :=
  if cs.isEmpty then none
  else
    cs.foldl
      (fun acc c =>
        acc.bind fun n =>
          if c.isDigit then some (n * 10 + (c.toNat - 48)) else none)
      (some 0)

/-- Python `int` on a string: an optional sign followed by at least one
decimal digit; anything else raises `ValueError`. -/
def pyStrToInt (cs : List Char) : Option Int :=
  match cs with
  | '-' :: rest => (decDigits rest).map (fun n => -(n : Int))
  | '+' :: rest => (decDigits rest).map (fun n => (n : Int))
  | _ => (decDigits cs).map (fun n => (n : Int))

/-- Python `int(x)` applied to `os.getenv` output: `int(None)` raises `TypeError`,
a non-numeric string raises `ValueError`. -/
def pyInt (x : Option String) : Except PyErr Int :=
  match x with
  | none => .error .typeError
  | some s =>
    match pyStrToInt s.toList with
    | some n => .ok n
    | none => .error .valueError

/-- Oracle for the remote Confluence instance, indexed by page id (and by
attempt number for the calls repeated inside the retry loop). -/
structure ConfluenceEnv where
  /-- Title returned by `get_confluence_page_title_by_id`. -/
  pageTitle : String → String
  /-- `body.export_view.value` returned by `get_confluence_page_content_by_id`. -/
  pageContent : String → String
  /-- The two regex captures of `extract_task_and_cloud_id_from_html` over the
  markup returned by the export-initiation request (per page, per attempt). -/
  exportHtmlIds : String → Nat → Option String × Option String
  /-- Body of the download-resolution response (the presigned URL text). -/
  presignedUrl : String → Nat → String
  /-- HTTP status of `requests.get` on the presigned URL (per page, per attempt). -/
  downloadStatus : String → Nat → Nat

/-- `extract_task_and_cloud_id_from_html`: returns the pair only when both
regex captures are present (`if task_id and cloud_id`; the capture groups
`([^"]+)` are non-empty, so Python truthiness coincides with presence). -/
def extract_task_and_cloud_id_from_html (task_id cloud_id : Option String) :
    Option (String × String) :=
  match task_id, cloud_id with
  | some t, some c => some (t, c)
  | _, _ => none

/-- `get_pdf_export_confluence_url`: extracts the task/cloud id pair from the
initiation response; if both present, fetches the download-resolution endpoint
and returns its body; otherwise falls through and returns `None`. -/
def get_pdf_export_confluence_url (env : ConfluenceEnv) (page_id : String)
    (attempt : Nat) : Option String :=
  match extract_task_and_cloud_id_from_html (env.exportHtmlIds page_id attempt).1
      (env.exportHtmlIds page_id attempt).2 with
  | some _ => some (env.presignedUrl page_id attempt)
  | none => none

/-- `get_confluence_page_content_by_id`: the `body.export_view.value` field. -/
def get_confluence_page_content_by_id (env : ConfluenceEnv) (page_id : String) :
    String :=
  env.pageContent page_id

/-- `is_empty_confluence_page`: content equals `"<p />"` or `""`. -/
def is_empty_confluence_page (env : ConfluenceEnv) (page_id : String) : Bool :=
  get_confluence_page_content_by_id env page_id == "<p />" ||
    get_confluence_page_content_by_id env page_id == ""

/-- An HTTP response as seen by `handle_json_errors`: status code, raw text,
and the result of `response.json()` (`none` models the `ValueError` raise on a
body that is not valid JSON; the parsed document itself is kept abstract as its
serialized text). -/
structure HttpResponse where
  status_code : Nat
  text : String
  jsonBody : Option String
deriving Repr, DecidableEq

/-- Result of `response.json()`: the parsed document or a `ValueError`. -/
def response_json (r : HttpResponse) : Except PyErr String :=
  match r.jsonBody with
  | some j => .ok j
  | none => .error .valueError

/-- The dict returned by `handle_json_errors`: parsed data, or an error dict
with `"error"` and `"details"` keys. -/
inductive JsonOut where
  | data (d : String)
  | errorDict (error details : String)
deriving Repr, DecidableEq

/-- `handle_json_errors`: on status 200 try `response.json()`, catching
`ValueError`; on any other status build the error dict.  The `Except` layer
records whether an exception escapes the function. -/
def handle_json_errors (r : HttpResponse) : Except PyErr JsonOut :=
  if r.status_code == 200 then
    match response_json r with
    | .ok d => .ok (.data d)
    | .error .valueError => .ok (.errorDict "Response is not JSON formatted" r.text)
    | .error e => .error e
  else
    .ok (.errorDict ("Request failed with status " ++ toString r.status_code) r.text)

/-- A node of the remote page hierarchy, assumed finite and acyclic (the
Confluence data model; the spec treats acyclicity as an external invariant).
The children listing endpoint of a node returns exactly `children`. -/
inductive PageNode where
  | node (pid : String) (title : String) (children : List PageNode)
deriving Repr

/-- Page id of a node. -/
def PageNode.pid : PageNode → String
  | .node i _ _ => i

/-- Title of a node. -/
def PageNode.title : PageNode → String
  | .node _ t _ => t

/-- Children of a node (what `GET /pages/{id}/children` lists, one level). -/
def PageNode.children : PageNode → List PageNode
  | .node _ _ cs => cs

/-- The traversal of `get_confluence_children_by_parent_page_id_recursive`
over a list of sibling subtrees: for each child record `(id, title)`, then
splice in the recursive result for that child (`pages_ids_dict.update`),
then continue with the remaining siblings. -/
def discover_list : List PageNode → List (String × String)
  | [] => []
  | .node i t cs :: rest => (i, t) :: (discover_list cs ++ discover_list rest)

/-- `get_confluence_children_by_parent_page_id_recursive` applied to a page:
an empty mapping when the page has no children, else the child entries with
their recursive expansions. -/
def get_confluence_children_by_parent_page_id_recursive (p : PageNode) :
    List (String × String) :=
  discover_list p.children

/-- The strict-descendant ids of a list of sibling subtrees, in traversal order. -/
def descendant_ids : List PageNode → List String
  | [] => []
  | .node i _ cs :: rest => i :: (descendant_ids cs ++ descendant_ids rest)

/-- Python `\w` word-character class, restricted to ASCII as used by the titles
in this service: alphanumeric or underscore. -/
def isWordChar (c : Char) : Bool :=
  c.isAlphanum || c == '_'

/-- `convert_title_to_filename`:
`re.sub(r'\W+', '', title.strip().replace(' ', '_'))` — strip surrounding
whitespace, replace spaces by underscores, drop every remaining non-word
character. -/
def convert_title_to_filename (title : String) : String :=
  ⟨(((title.toList.dropWhile Char.isWhitespace).reverse.dropWhile
      Char.isWhitespace).reverse.map (fun c => if c == ' ' then '_' else c)).filter
    isWordChar⟩

/-- `file_page_title` as built in `export_pdf_confluence_page_by_id`:
`f"{convert_title_to_filename(page_title)}_confluencePageId={page_id}"`. -/
def file_page_title (title page_id : String) : String :=
  convert_title_to_filename title ++ "_confluencePageId=" ++ page_id

/-- `requests.get` on the presigned URL: raises `MissingSchema` when the URL is
`None`, otherwise yields the oracle status code. -/
def requests_get_status (url : Option String) (status : Nat) : Except PyErr Nat :=
  match url with
  | none => .error .missingSchema
  | some _ => .ok status

/-- `download_pdf_from_presigned_url`: fetches the URL and writes the file
locally; returns the dict `{"statusCode": response.status_code}` (the whole
dict, as the source does — its docstring claims it returns the status code). -/
def download_pdf_from_presigned_url (url : Option String) (status : Nat) :
    Except PyErr PyVal :=
  (requests_get_status url status).map PyVal.statusDict

/-- `download_pdf_from_presigned_url_to_gcs_bucket`: fetches the URL and
uploads the buffered body to the bucket; returns `{"statusCode": ...}`. -/
def download_pdf_from_presigned_url_to_gcs_bucket (url : Option String)
    (status : Nat) : Except PyErr PyVal :=
  (requests_get_status url status).map PyVal.statusDict

/-- Field access `d['statusCode']` on the returned dict. -/
def pyDictGetStatusCode (v : PyVal) : Nat :=
  match v with
  | .int n => n
  | .statusDict n => n

/-- Observable events of one `export_pdf_confluence_page_by_id` call, in
program order. -/
inductive Event where
  /-- The `is_empty_confluence_page` check. -/
  | check_empty
  /-- A call to `get_pdf_export_confluence_url` (export initiation). -/
  | get_export_url (attempt : Nat)
  /-- `time.sleep(wait_time)`: the settling delay before the download. -/
  | sleep_settle (seconds : Int)
  /-- The download request of an attempt, with its HTTP status. -/
  | download (attempt : Nat) (status : Nat)
  /-- `time.sleep(10)` after a failed attempt. -/
  | sleep_retry (seconds : Int)
deriving Repr, DecidableEq

/-- The loop body's download branch: with a bucket configured, call the bucket
helper and extract `download_url['statusCode']` (an int); otherwise call the
local helper and bind its whole return value (the dict) to `status_code`, as
the source does. -/
def download_step (gcs_bucket_name : Option String) (url : Option String)
    (st : Nat) : Except PyErr PyVal :=
  match gcs_bucket_name with
  | some _ =>
    (download_pdf_from_presigned_url_to_gcs_bucket url st).map
      (fun d => PyVal.int (pyDictGetStatusCode d))
  | none => download_pdf_from_presigned_url url st

/-- The `for attempt in range(3)` retry loop of
`export_pdf_confluence_page_by_id`, with `remaining` the attempts left
(entered with 3), `attempt` the current index and `wait_time` the current
settling delay.  Each attempt requests an export URL, sleeps the settling
delay, downloads, and on a failed comparison with 200 raises the delay by 10
and sleeps 10 before retrying.  Returns the outcome (or escaping exception)
and the event trace. -/
def export_attempt_loop (env : ConfluenceEnv) (page_id : String)
    (gcs_bucket_name : Option String) :
    Nat → Nat → Int → Except PyErr String × List Event
  | 0, _, _ => (.ok "DOWNLOAD_FAILED", [])
  | remaining + 1, attempt, wait_time =>
    match download_step gcs_bucket_name
        (get_pdf_export_confluence_url env page_id attempt)
        (env.downloadStatus page_id attempt) with
    | .error e => (.error e, [.get_export_url attempt, .sleep_settle wait_time])
    | .ok status_code =>
      if pyEqInt status_code 200 then
        (.ok "DOWNLOAD_SUCCESFUL",
          [.get_export_url attempt, .sleep_settle wait_time,
            .download attempt (env.downloadStatus page_id attempt)])
      else
        let rest := export_attempt_loop env page_id gcs_bucket_name remaining
          (attempt + 1) (wait_time + 10)
        (rest.1, .get_export_url attempt :: .sleep_settle wait_time ::
          .download attempt (env.downloadStatus page_id attempt) ::
          .sleep_retry 10 :: rest.2)

/-- `export_pdf_confluence_page_by_id`: resolve the title when absent or empty
(Python truthiness of `page_title`), build the file title, return `EMPTY_PAGE`
on an empty page, else run the 3-attempt loop starting from `wait_time`. -/
def export_pdf_confluence_page_by_id (env : ConfluenceEnv) (page_id : String)
    (page_title : Option String) (output_path : Option String)
    (gcs_bucket_name : Option String) (wait_time : Int) :
    Except PyErr String × List Event :=
  let title :=
    match page_title with
    | none => env.pageTitle page_id
    | some t => if t == "" then env.pageTitle page_id else t
  let _fpt := file_page_title title page_id
  let _out := output_path
  if is_empty_confluence_page env page_id then
    (.ok "EMPTY_PAGE", [.check_empty])
  else
    let res := export_attempt_loop env page_id gcs_bucket_name 3 0 wait_time
    (res.1, .check_empty :: res.2)

/-- The settling delays recorded in a trace, in order. -/
def settle_waits (evs : List Event) : List Int :=
  evs.filterMap fun e =>
    match e with
    | .sleep_settle n => some n
    | _ => none

/-- Number of download requests in a trace. -/
def download_count (evs : List Event) : Nat :=
  (evs.filter fun e =>
    match e with
    | .download _ _ => true
    | _ => false).length

/-- The first settling delay of a trace, if any. -/
def first_settle_wait (evs : List Event) : Option Int :=
  (settle_waits evs).head?

/-- The settling delays the loop is expected to use: starting at `w`,
increasing by 10 after each failure. -/
def expected_waits (w : Int) : Nat → List Int
  | 0 => []
  | n + 1 => w :: expected_waits (w + 10) n

/-- The dict returned by `delete_files_in_bucket`'s `except` branch. -/
structure PyExcResponse where
  status : Int
  msg : String
  data : String
deriving Repr, DecidableEq

/-- `delete_files_in_bucket`: lists and deletes every blob inside a
`try`/`except Exception`; `clearExc` is the exception (message) raised during
listing/deleting, if any.  On failure it returns the error dict; on success it
returns `None` implicitly.  It never raises. -/
def delete_files_in_bucket (clearExc : Option String) : Option PyExcResponse :=
  match clearExc with
  | some e => some ⟨-1, "Unknown", e⟩
  | none => none

/-- The environment variables read by the route (`os.getenv` results). -/
structure EnvVars where
  DOMAIN : Option String
  EMAIL : Option String
  API_TOKEN : Option String
  SPACE_KEY : Option String
  GCS_BUCKET_NAME : Option String
  WAIT_TIME_BEFORE_DOWNLOAD : Option String

/-- Oracle for the external world of one route invocation. -/
structure World where
  /-- Exception raised while listing/deleting blobs inside
  `delete_files_in_bucket`, if any. -/
  clearExc : Option String
  /-- Exception raised by `storage.Client()`/`bucket()` in the route's own
  bucket-cleaning `try`, if any. -/
  clientExc : Option String
  /-- Combined result of space-id, homepage-id and tree resolution: the
  discovered `(page_id, title)` list, or the exception message. -/
  traversal : Except String (List (String × String))
  /-- Remote behaviour for the per-page exports. -/
  conf : ConfluenceEnv

/-- What the HTTP route invocation produces: a structured response dict, or an
exception that escapes the handler (surfacing as a server error, not a dict). -/
inductive RouteResult where
  | resp (status : Int) (msg : String)
  | unhandled (e : PyErr)

/-- The route's sequential per-page loop: runs `export_pdf_confluence_page_by_id`
for each discovered page with the same configured `wait_time`; a raised
exception propagates out of the loop. -/
def run_pages (env : ConfluenceEnv) (gcs_bucket_name : Option String)
    (wait_time : Int) : List (String × String) → Except PyErr (List (String × String))
  | [] => .ok []
  | (pid, t) :: rest =>
    match (export_pdf_confluence_page_by_id env pid (some t) none gcs_bucket_name
        wait_time).1 with
    | .error e => .error e
    | .ok s =>
      match run_pages env gcs_bucket_name wait_time rest with
      | .error e => .error e
      | .ok acc => .ok ((pid, s) :: acc)

/-- `export_pdf_confluence_space_to_gcs_bucket_by_key` (the `/export_space`
route): load env vars (only `int(...)` on the wait time can raise there, and
the `except` handler evaluates `str(e)` with `e` unbound, so it raises
`NameError`); clean the bucket, discarding `delete_files_in_bucket`'s return
value; resolve the space and traverse; export every page sequentially. -/
def export_space_route (v : EnvVars) (w : World) : RouteResult :=
  match pyInt v.WAIT_TIME_BEFORE_DOWNLOAD with
  | .error _ => .unhandled .nameError
  | .ok wait_time =>
    let _ignored := delete_files_in_bucket w.clearExc
    match w.clientExc with
    | some _ => .resp (-1) "Could not clean bucket"
    | none =>
      match w.traversal with
      | .error _ => .resp (-1) "Confluence space download failed"
      | .ok pages =>
        match run_pages w.conf v.GCS_BUCKET_NAME wait_time pages with
        | .error _ => .resp (-1) "Confluence space download failed"
        | .ok _ => .resp 1 "Confluence space download succesful"

/-- The per-page invocations the route's loop performs, each with its result
and trace (used to reason about the independence of the per-page backoff). -/
def pipeline_page_runs (env : ConfluenceEnv) (gcs_bucket_name : Option String)
    (wait_time : Int) (pages : List (String × String)) :
    List (String × (Except PyErr String × List Event)) :=
  pages.map fun pt =>
    (pt.1, export_pdf_confluence_page_by_id env pt.1 (some pt.2) none
      gcs_bucket_name wait_time)

/-- A remote instance whose export initiation always yields both metadata ids
and whose presigned download always answers with status `st`. -/
def envWithStatus (st : Nat) : ConfluenceEnv where
  pageTitle := fun _ => "Title"
  pageContent := fun _ => "<p>content</p>"
  exportHtmlIds := fun _ _ => (some "task1", some "cloud1")
  presignedUrl := fun _ _ => "presigned-url"
  downloadStatus := fun _ _ => st

/-- A remote instance whose export-initiation markup lacks the task id, so
`get_pdf_export_confluence_url` returns `None`. -/
def envNoTaskId : ConfluenceEnv where
  pageTitle := fun _ => "Title"
  pageContent := fun _ => "<p>content</p>"
  exportHtmlIds := fun _ _ => (none, some "cloud1")
  presignedUrl := fun _ _ => "presigned-url"
  downloadStatus := fun _ _ => 200

/-- A remote instance on which every page is empty (`"<p />"`). -/
def envEmptyPage : ConfluenceEnv where
  pageTitle := fun _ => "Title"
  pageContent := fun _ => "<p />"
  exportHtmlIds := fun _ _ => (some "task1", some "cloud1")
  presignedUrl := fun _ _ => "presigned-url"
  downloadStatus := fun _ _ => 200

/-- A remote instance where page `p1` always fails its download (404) and
every other page succeeds (200). -/
def envMixed : ConfluenceEnv where
  pageTitle := fun _ => "Title"
  pageContent := fun _ => "<p>content</p>"
  exportHtmlIds := fun _ _ => (some "task1", some "cloud1")
  presignedUrl := fun _ _ => "presigned-url"
  downloadStatus := fun pid _ => if pid == "p1" then 404 else 200

/-- A benign set of environment variables for the route. -/
def envVarsOk : EnvVars where
  DOMAIN := some "example.atlassian.net"
  EMAIL := some "user@example.com"
  API_TOKEN := some "token"
  SPACE_KEY := some "SP"
  GCS_BUCKET_NAME := some "bucket"
  WAIT_TIME_BEFORE_DOWNLOAD := some "15"

/-- A world where listing/deleting blobs inside `delete_files_in_bucket`
raises, and everything else behaves. -/
def worldClearFails : World where
  clearExc := some "403 Forbidden while listing blobs"
  clientExc := none
  traversal := .ok [("p7", "Page Seven")]
  conf := envWithStatus 200

/-- A fully benign world. -/
def worldBenign : World where
  clearExc := none
  clientExc := none
  traversal := .ok [("p7", "Page Seven")]
  conf := envWithStatus 200

/-- `download_step` with a bucket and a present URL: the extracted int. -/
lemma download_step_bucket_some (b u : String) (st : Nat) :
    download_step (some b) (some u) st = .ok (.int st) := rfl

/-- `download_step` with no bucket and a present URL: the whole dict. -/
lemma download_step_local_some (u : String) (st : Nat) :
    download_step none (some u) st = .ok (.statusDict st) := rfl

/-- `download_step` on a missing URL raises `MissingSchema` for either
destination. -/
lemma download_step_none_url (gcs : Option String) (st : Nat) :
    download_step gcs none st = .error .missingSchema := by
  cases gcs <;> rfl

/-- With a present URL and a non-200 status, the download step succeeds with a
value that compares unequal to 200 (for the bucket destination because the
status differs; for the local destination because the value is a dict). -/
lemma download_step_ok_not200 (gcs : Option String) (u : String) (st : Nat)
    (h : st ≠ 200) :
    ∃ v, download_step gcs (some u) st = .ok v ∧ pyEqInt v 200 = false := by
  cases gcs with
  | none => exact ⟨.statusDict st, rfl, rfl⟩
  | some b =>
    refine ⟨.int st, rfl, ?_⟩
    simpa [pyEqInt] using h

/-- When every attempt's initiation yields a URL and every download status is
non-200, the loop exhausts all `remaining` attempts: it returns
DOWNLOAD_FAILED, performs one download per attempt, and the settling delays
grow by 10 per attempt starting from `w`. -/
lemma export_attempt_loop_all_fail (env : ConfluenceEnv) (pid : String)
    (gcs : Option String)
    (hurl : ∀ k, ∃ u, get_pdf_export_confluence_url env pid k = some u)
    (hfail : ∀ k, env.downloadStatus pid k ≠ 200) :
    ∀ (remaining attempt : Nat) (w : Int),
      (export_attempt_loop env pid gcs remaining attempt w).1 =
        Except.ok "DOWNLOAD_FAILED" ∧
      settle_waits (export_attempt_loop env pid gcs remaining attempt w).2 =
        expected_waits w remaining ∧
      download_count (export_attempt_loop env pid gcs remaining attempt w).2 =
        remaining := by
  intro remaining
  induction remaining with
  | zero =>
    intro attempt w
    simp [export_attempt_loop, settle_waits, download_count, expected_waits]
  | succ n ih =>
    intro attempt w
    obtain ⟨u, hu⟩ := hurl attempt
    obtain ⟨v, hv, hv200⟩ :=
      download_step_ok_not200 gcs u (env.downloadStatus pid attempt)
        (hfail attempt)
    have hrec := ih (attempt + 1) (w + 10)
    simp only [export_attempt_loop, hu, hv, hv200, Bool.false_eq_true, if_false]
    refine ⟨hrec.1, ?_, ?_⟩
    · have h := hrec.2.1
      simp only [settle_waits] at h
      simp [settle_waits, expected_waits, h]
    · have h := hrec.2.2
      simp only [download_count] at h
      simp [download_count, h]

/-- Whatever happens inside it, a loop entered with at least one attempt left
first requests the export URL and then sleeps the current settling delay. -/
lemma export_attempt_loop_trace_head (env : ConfluenceEnv) (pid : String)
    (gcs : Option String) (n attempt : Nat) (w : Int) :
    ∃ tail, (export_attempt_loop env pid gcs (n + 1) attempt w).2 =
      Event.get_export_url attempt :: Event.sleep_settle w :: tail := by
  simp only [export_attempt_loop]
  cases hdl : download_step gcs (get_pdf_export_confluence_url env pid attempt)
      (env.downloadStatus pid attempt) with
  | error e => exact ⟨[], rfl⟩
  | ok v =>
    by_cases h200 : pyEqInt v 200 = true
    · simp only [h200, if_true]
      exact ⟨_, rfl⟩
    · simp only [h200, if_false]
      exact ⟨_, rfl⟩

/-- The first settling delay of an `export_pdf_confluence_page_by_id` call is
either absent (empty page) or exactly the configured initial `wait_time`. -/
lemma export_first_settle (env : ConfluenceEnv) (pid : String)
    (pt out gcs : Option String) (w : Int) :
    first_settle_wait
        (export_pdf_confluence_page_by_id env pid pt out gcs w).2 = none ∨
      first_settle_wait
        (export_pdf_confluence_page_by_id env pid pt out gcs w).2 = some w := by
  by_cases hemp : is_empty_confluence_page env pid = true
  · left
    simp [export_pdf_confluence_page_by_id, hemp, first_settle_wait, settle_waits]
  · right
    obtain ⟨tail, htail⟩ := export_attempt_loop_trace_head env pid gcs 2 0 w
    simp [export_pdf_confluence_page_by_id, hemp, htail, first_settle_wait,
      settle_waits]

/-- The first components of the traversal result are exactly the descendant
ids, in order. -/
lemma discover_list_map_fst (l : List PageNode) :
    (discover_list l).map Prod.fst = descendant_ids l := by
  induction l using discover_list.induct with
  | case1 => simp [discover_list, descendant_ids]
  | case2 i t cs rest ih1 ih2 =>
    simp [discover_list, descendant_ids, ih1, ih2]

/-- Claim C1 (code bug): a transport/auth failure while listing or deleting
objects during the bucket clear does NOT propagate — `delete_files_in_bucket`
catches it and returns an error dict that the route discards, so the run
continues and still answers status 1.  This theorem evaluates the code at the
failing input. -/
theorem C1_bucket_clear_failure_swallowed :
    delete_files_in_bucket (some "403 Forbidden while listing blobs") =
      some ⟨-1, "Unknown", "403 Forbidden while listing blobs"⟩ ∧
    export_space_route envVarsOk worldClearFails =
      RouteResult.resp 1 "Confluence space download succesful" :=
  ⟨rfl, rfl⟩

/-- Claim C2 (counterexample): with export initiation yielding no presigned
URL (task id absent), `export_pdf_confluence_page_by_id` does not count a
failed attempt — the download call raises on the `None` URL and the exception
escapes (zero download requests happen). -/
theorem C2_counterexample_no_url_raises :
    (export_pdf_confluence_page_by_id envNoTaskId "p1" (some "Title") none
        (some "bucket") 15).1 = Except.error PyErr.missingSchema ∧
    download_count (export_pdf_confluence_page_by_id envNoTaskId "p1"
        (some "Title") none (some "bucket") 15).2 = 0 :=
  ⟨rfl, rfl⟩

/-- Claim C2 (amended): for every page that is not empty, whenever export
initiation fails to produce a URL on the first attempt, the `MissingSchema`
exception raised by downloading from the `None` URL escapes
`export_pdf_confluence_page_by_id`, and no download attempt is consumed. -/
theorem C2_no_url_exception_escapes (env : ConfluenceEnv) (pid : String)
    (pt out gcs : Option String) (w : Int)
    (hne : is_empty_confluence_page env pid = false)
    (hurl0 : get_pdf_export_confluence_url env pid 0 = none) :
    (export_pdf_confluence_page_by_id env pid pt out gcs w).1 =
      Except.error PyErr.missingSchema ∧
    download_count
      (export_pdf_confluence_page_by_id env pid pt out gcs w).2 = 0 := by
  have hloop : export_attempt_loop env pid gcs 3 0 w =
      (.error .missingSchema, [.get_export_url 0, .sleep_settle w]) := by
    show export_attempt_loop env pid gcs (2 + 1) 0 w = _
    simp only [export_attempt_loop, hurl0, download_step_none_url]
  constructor
  · simp [export_pdf_confluence_page_by_id, hne, hloop]
  · simp [export_pdf_confluence_page_by_id, hne, hloop, download_count]

/-- Witness for C2's amended theorem at a concrete remote instance (local
destination this time). -/
theorem C2_no_url_exception_escapes_witness :
    is_empty_confluence_page envNoTaskId "p1" = false ∧
    get_pdf_export_confluence_url envNoTaskId "p1" 0 = none ∧
    ((export_pdf_confluence_page_by_id envNoTaskId "p1" (some "Title") none
        none 15).1 = Except.error PyErr.missingSchema ∧
      download_count (export_pdf_confluence_page_by_id envNoTaskId "p1"
        (some "Title") none none 15).2 = 0) :=
  ⟨rfl, rfl,
    C2_no_url_exception_escapes envNoTaskId "p1" (some "Title") none none 15
      rfl rfl⟩

/-- Claim C3 (code bug): with the local-filesystem destination the code binds
`status_code` to the returned dict, so even an HTTP 200 download never
compares equal to 200: all three attempts are burned and DOWNLOAD_FAILED is
returned.  With a bucket destination the claimed behaviour does hold:
DOWNLOAD_SUCCESFUL after exactly one attempt. -/
theorem C3_local_destination_success_misdetected :
    (export_pdf_confluence_page_by_id (envWithStatus 200) "p1" (some "My Page")
        none none 15).1 = Except.ok "DOWNLOAD_FAILED" ∧
    download_count (export_pdf_confluence_page_by_id (envWithStatus 200) "p1"
        (some "My Page") none none 15).2 = 3 ∧
    export_pdf_confluence_page_by_id (envWithStatus 200) "p1" (some "My Page")
        none (some "bucket") 15 =
      (Except.ok "DOWNLOAD_SUCCESFUL",
        [Event.check_empty, Event.get_export_url 0, Event.sleep_settle 15,
          Event.download 0 200]) :=
  ⟨rfl, rfl, rfl⟩

/-- Claim C4: for every page that is not empty, whose export initiation always
yields a URL and whose download returns non-200 on every attempt (either
destination), `export_pdf_confluence_page_by_id` performs exactly 3 download
attempts, returns DOWNLOAD_FAILED, and its settling waits are `w, w+10, w+20`
— strictly increasing by 10 after each failure. -/
theorem C4_all_attempts_fail_backoff (env : ConfluenceEnv) (pid : String)
    (pt out gcs : Option String) (w : Int)
    (hne : is_empty_confluence_page env pid = false)
    (hurl : ∀ k, ∃ u, get_pdf_export_confluence_url env pid k = some u)
    (hfail : ∀ k, env.downloadStatus pid k ≠ 200) :
    (export_pdf_confluence_page_by_id env pid pt out gcs w).1 =
      Except.ok "DOWNLOAD_FAILED" ∧
    download_count (export_pdf_confluence_page_by_id env pid pt out gcs w).2 = 3 ∧
    settle_waits (export_pdf_confluence_page_by_id env pid pt out gcs w).2 =
      [w, w + 10, w + 20] ∧
    List.Chain' (fun a b => a < b)
      (settle_waits (export_pdf_confluence_page_by_id env pid pt out gcs w).2) := by
  have h := export_attempt_loop_all_fail env pid gcs hurl hfail 3 0 w
  have hw3 : expected_waits w 3 = [w, w + 10, w + 10 + 10] := rfl
  have hw : expected_waits w 3 = [w, w + 10, w + 20] := by
    rw [hw3]
    have : w + 10 + 10 = w + 20 := by omega
    rw [this]
  have hset : settle_waits
      (export_pdf_confluence_page_by_id env pid pt out gcs w).2 =
      [w, w + 10, w + 20] := by
    have h1 := h.2.1
    simp only [settle_waits] at h1
    simp [export_pdf_confluence_page_by_id, hne, settle_waits, h1, ← hw, h1]
  refine ⟨?_, ?_, hset, ?_⟩
  · simp [export_pdf_confluence_page_by_id, hne, h.1]
  · have h2 := h.2.2
    simp only [download_count] at h2
    simp [export_pdf_confluence_page_by_id, hne, download_count, h2]
  · rw [hset]
    refine List.chain'_cons.mpr ⟨by omega, List.chain'_cons.mpr ⟨by omega, ?_⟩⟩
    exact List.chain'_singleton _

/-- Witness for C4 at a remote instance that always answers 404. -/
theorem C4_all_attempts_fail_backoff_witness :
    is_empty_confluence_page (envWithStatus 404) "p1" = false ∧
    ((export_pdf_confluence_page_by_id (envWithStatus 404) "p1" (some "T") none
        (some "b") 15).1 = Except.ok "DOWNLOAD_FAILED" ∧
      download_count (export_pdf_confluence_page_by_id (envWithStatus 404) "p1"
        (some "T") none (some "b") 15).2 = 3 ∧
      settle_waits (export_pdf_confluence_page_by_id (envWithStatus 404) "p1"
        (some "T") none (some "b") 15).2 = [15, 25, 35] ∧
      List.Chain' (fun a b => a < b)
        (settle_waits (export_pdf_confluence_page_by_id (envWithStatus 404) "p1"
          (some "T") none (some "b") 15).2)) :=
  ⟨rfl,
    C4_all_attempts_fail_backoff (envWithStatus 404) "p1" (some "T") none
      (some "b") 15 rfl (fun _ => ⟨"presigned-url", rfl⟩)
      (fun _ => (by norm_num : (404 : Nat) ≠ 200))⟩

/-- Claim C5: for every page reported empty (export-view content `"<p />"` or
`""`), `export_pdf_confluence_page_by_id` returns EMPTY_PAGE immediately with
only the emptiness check in its trace — export initiation is never invoked. -/
theorem C5_empty_page_no_initiation (env : ConfluenceEnv) (pid : String)
    (pt out gcs : Option String) (w : Int)
    (hemp : is_empty_confluence_page env pid = true) :
    export_pdf_confluence_page_by_id env pid pt out gcs w =
      (Except.ok "EMPTY_PAGE", [Event.check_empty]) ∧
    ∀ k, Event.get_export_url k ∉
      (export_pdf_confluence_page_by_id env pid pt out gcs w).2 := by
  have h : export_pdf_confluence_page_by_id env pid pt out gcs w =
      (Except.ok "EMPTY_PAGE", [Event.check_empty]) := by
    simp [export_pdf_confluence_page_by_id, hemp]
  refine ⟨h, ?_⟩
  intro k
  rw [h]
  simp

/-- Witness for C5 at a remote instance whose pages all read `"<p />"`. -/
theorem C5_empty_page_no_initiation_witness :
    is_empty_confluence_page envEmptyPage "p1" = true ∧
    (export_pdf_confluence_page_by_id envEmptyPage "p1" (some "T") none
        (some "b") 15 = (Except.ok "EMPTY_PAGE", [Event.check_empty]) ∧
      ∀ k, Event.get_export_url k ∉
        (export_pdf_confluence_page_by_id envEmptyPage "p1" (some "T") none
          (some "b") 15).2) :=
  ⟨rfl, C5_empty_page_no_initiation envEmptyPage "p1" (some "T") none
    (some "b") 15 rfl⟩

/-- Claim C6: for every finite acyclic hierarchy, the key set of the discovery
result equals the set of strict descendants of the root (homepage) in
traversal order; a page with zero children yields the empty mapping; and the
homepage itself never appears among the keys. -/
theorem C6_tree_discovery_keys (p : PageNode)
    (hacyc : p.pid ∉ descendant_ids p.children) :
    (get_confluence_children_by_parent_page_id_recursive p).map Prod.fst =
      descendant_ids p.children ∧
    (p.children = [] →
      get_confluence_children_by_parent_page_id_recursive p = []) ∧
    p.pid ∉
      (get_confluence_children_by_parent_page_id_recursive p).map Prod.fst := by
  refine ⟨discover_list_map_fst p.children, ?_, ?_⟩
  · intro h
    simp [get_confluence_children_by_parent_page_id_recursive, h, discover_list]
  · simp only [get_confluence_children_by_parent_page_id_recursive]
    rw [discover_list_map_fst]
    exact hacyc

/-- A small concrete hierarchy: homepage with children A and B, where B has
child C. -/
def sampleTree : PageNode :=
  .node "home" "Home" [.node "a" "A" [], .node "b" "B" [.node "c" "C" []]]

/-- Witness for C6 at `sampleTree`. -/
theorem C6_tree_discovery_keys_witness :
    sampleTree.pid ∉ descendant_ids sampleTree.children ∧
    ((get_confluence_children_by_parent_page_id_recursive sampleTree).map
        Prod.fst = descendant_ids sampleTree.children ∧
      (sampleTree.children = [] →
        get_confluence_children_by_parent_page_id_recursive sampleTree = []) ∧
      sampleTree.pid ∉
        (get_confluence_children_by_parent_page_id_recursive sampleTree).map
          Prod.fst) :=
  ⟨by simp [sampleTree, PageNode.pid, PageNode.children, descendant_ids],
    C6_tree_discovery_keys sampleTree
      (by simp [sampleTree, PageNode.pid, PageNode.children, descendant_ids])⟩

/-- Route env vars with the wait time unset. -/
def envVarsNoWait : EnvVars :=
  { envVarsOk with WAIT_TIME_BEFORE_DOWNLOAD := none }

/-- Route env vars with a non-numeric wait time. -/
def envVarsBadWait : EnvVars :=
  { envVarsOk with WAIT_TIME_BEFORE_DOWNLOAD := some "fifteen" }

/-- Route env vars with the domain unset. -/
def envVarsNoDomain : EnvVars :=
  { envVarsOk with DOMAIN := none }

/-- Claim C7 (code bug): an absent or malformed wait time makes `int(...)`
raise, but the route's handler evaluates `str(e)` with `e` unbound, so a
`NameError` escapes instead of the structured status -1 response; and an
absent DOMAIN is not detected at all — the run proceeds to the remote calls
and (with a benign world) still reports success. -/
theorem C7_config_failure_not_structured :
    export_space_route envVarsNoWait worldBenign =
      RouteResult.unhandled PyErr.nameError ∧
    export_space_route envVarsBadWait worldBenign =
      RouteResult.unhandled PyErr.nameError ∧
    export_space_route envVarsNoDomain worldBenign =
      RouteResult.resp 1 "Confluence space download succesful" :=
  ⟨rfl, rfl, rfl⟩

/-- Claim C8: sanitization of `"My Page: v2/Draft"` yields `"My_Page_v2Draft"`;
every character of a sanitized title is a word character (in particular not a
space); and the produced file title is never empty and always carries the
`_confluencePageId={page_id}` suffix, even when the title sanitizes to the
empty string. -/
theorem C8_filename_sanitization (t pid : String) (c : Char)
    (hc : c ∈ (convert_title_to_filename t).toList) :
    convert_title_to_filename "My Page: v2/Draft" = "My_Page_v2Draft" ∧
    (isWordChar c = true ∧ c ≠ ' ') ∧
    file_page_title t pid ≠ "" ∧
    ∃ s, file_page_title t pid = s ++ "_confluencePageId=" ++ pid := by
  refine ⟨by decide, ?_, ?_, ⟨convert_title_to_filename t, rfl⟩⟩
  · have hc' : c ∈ List.filter isWordChar
        ((((t.toList.dropWhile Char.isWhitespace).reverse.dropWhile
          Char.isWhitespace).reverse).map
          (fun c => if c == ' ' then '_' else c)) := hc
    have hw : isWordChar c = true := (List.mem_filter.mp hc').2
    refine ⟨hw, ?_⟩
    intro hsp
    rw [hsp] at hw
    exact absurd hw (by decide)
  · intro h
    have hlen := congrArg String.length h
    simp only [file_page_title, String.length_append] at hlen
    have h18 : ("_confluencePageId=" : String).length = 18 := rfl
    have h0 : ("" : String).length = 0 := rfl
    rw [h18, h0] at hlen
    omega

/-- Witness for C8 at the spec's sample title with page id 12345. -/
theorem C8_filename_sanitization_witness :
    'M' ∈ (convert_title_to_filename "My Page: v2/Draft").toList ∧
    (convert_title_to_filename "My Page: v2/Draft" = "My_Page_v2Draft" ∧
      (isWordChar 'M' = true ∧ 'M' ≠ ' ') ∧
      file_page_title "My Page: v2/Draft" "12345" ≠ "" ∧
      ∃ s, file_page_title "My Page: v2/Draft" "12345" =
        s ++ "_confluencePageId=" ++ "12345") :=
  ⟨by decide, C8_filename_sanitization "My Page: v2/Draft" "12345" 'M' (by decide)⟩

/-- Claim C9: in the route's per-page loop, each page's export invocation is
the isolated call with the pipeline-configured initial `wait_time`; whenever
its trace has a first settling delay, that delay equals the configured value —
the increments accumulated by another page's failed attempts never leak in. -/
theorem C9_backoff_local_per_page (env : ConfluenceEnv) (gcs : Option String)
    (w : Int) (pages : List (String × String))
    (e : String × Except PyErr String × List Event)
    (he : e ∈ pipeline_page_runs env gcs w pages) :
    (∃ pt ∈ pages, e = (pt.1,
      export_pdf_confluence_page_by_id env pt.1 (some pt.2) none gcs w)) ∧
    ∀ w0, first_settle_wait e.2.2 = some w0 → w0 = w := by
  simp only [pipeline_page_runs, List.mem_map] at he
  obtain ⟨pt, hpt, heq⟩ := he
  subst heq
  refine ⟨⟨pt, hpt, rfl⟩, ?_⟩
  intro w0 h0
  rcases export_first_settle env pt.1 (some pt.2) none gcs w with hcase | hcase
  · rw [hcase] at h0
    exact Option.noConfusion h0
  · rw [hcase] at h0
    injection h0 with h
    exact h.symm

/-- The pages of the C9 witness run: `p1` fails every download (incrementing
its own backoff), `p2` follows it in the same run. -/
def c9_pages : List (String × String) := [("p1", "A"), ("p2", "B")]

/-- The second per-page invocation of the C9 witness run. -/
def c9_entry : String × Except PyErr String × List Event :=
  ("p2", export_pdf_confluence_page_by_id envMixed "p2" (some "B") none
    (some "bucket") 15)

/-- Witness for C9: in the run over `c9_pages`, page `p2`'s first settling
delay is the configured 15 even though `p1` (processed before it) failed all
its attempts and grew its own delay to 35. -/
theorem C9_backoff_local_per_page_witness :
    (∃ pt ∈ c9_pages, c9_entry = (pt.1,
      export_pdf_confluence_page_by_id envMixed pt.1 (some pt.2) none
        (some "bucket") 15)) ∧
    ∀ w0, first_settle_wait c9_entry.2.2 = some w0 → w0 = 15 :=
  C9_backoff_local_per_page envMixed (some "bucket") 15 c9_pages c9_entry
    (by
      have h : pipeline_page_runs envMixed (some "bucket") 15 c9_pages =
          [("p1", export_pdf_confluence_page_by_id envMixed "p1" (some "A")
            none (some "bucket") 15), c9_entry] := rfl
      rw [h]
      exact List.mem_cons_of_mem _ (List.mem_cons_self _ _))

/-- Claim C10: `handle_json_errors` is total — for every response it returns a
dict and no exception escapes: the parsed body on a JSON 200, the
not-JSON-formatted error dict on a 200 body that fails to parse, and the
request-failed error dict on any non-200 status. -/
theorem C10_handle_json_errors_total (r : HttpResponse) :
    (∃ o, handle_json_errors r = Except.ok o) ∧
    (∀ d, r.status_code = 200 → r.jsonBody = some d →
      handle_json_errors r = Except.ok (JsonOut.data d)) ∧
    (r.status_code = 200 → r.jsonBody = none →
      handle_json_errors r =
        Except.ok (JsonOut.errorDict "Response is not JSON formatted" r.text)) ∧
    (r.status_code ≠ 200 →
      handle_json_errors r = Except.ok (JsonOut.errorDict
        ("Request failed with status " ++ toString r.status_code) r.text)) := by
  refine ⟨?_, ?_, ?_, ?_⟩
  · by_cases h : r.status_code = 200
    · cases hj : r.jsonBody with
      | none =>
        exact ⟨.errorDict "Response is not JSON formatted" r.text,
          by simp [handle_json_errors, response_json, h, hj]⟩
      | some d =>
        exact ⟨.data d, by simp [handle_json_errors, response_json, h, hj]⟩
    · exact ⟨.errorDict ("Request failed with status " ++
        toString r.status_code) r.text, by simp [handle_json_errors, h]⟩
  · intro d h hd
    simp [handle_json_errors, response_json, h, hd]
  · intro h hd
    simp [handle_json_errors, response_json, h, hd]
  · intro h
    simp [handle_json_errors, h]

/-- Witness for C10 at a 404 response. -/
theorem C10_handle_json_errors_total_witness :
    handle_json_errors ⟨404, "not found", none⟩ =
      Except.ok (JsonOut.errorDict
        ("Request failed with status " ++ toString (404 : Nat)) "not found") :=
  (C10_handle_json_errors_total ⟨404, "not found", none⟩).2.2.2 (by decide)
